import Mathlib

/-!
Verification of the social-graph / feed / engagement slice of the
Alx_DjangoLearnLab repository (app `social_media_api`).

The embedding translates the Django views and models into pure Lean
functions over an explicit state:
  * `accounts/models.py` — `User.followers` is a non-symmetrical
    many-to-many relation on users with reverse accessor `following`;
    we model it as an explicit list of directed edges
    `(follower, followee)`.
  * `accounts/views.py` — `FollowUserView.post` and
    `UnfollowUserView.post` become `followUserPost` / `unfollowUserPost`.
  * `posts/views.py` — `FeedView.get_queryset` becomes
    `feedGetQueryset`; `like_post` and `unlike_post` keep their names.
Machine ids are modelled as `Nat`; timestamps as `Nat`.
-/

/-- Modelled from the spec: the `Post` model (file `posts/models.py` is not
under `src/`; only its callers in `posts/views.py` are). The spec gives a
Post "id, author id, content, creation timestamp"; the views use `pk`,
`author` and order by `created_at`. Content is irrelevant to the claims and
omitted. -/
structure Post where
  id : Nat
  author : Nat
  created_at : Nat
deriving DecidableEq, Repr

/-- Modelled from the spec: the `Notification` model (file
`notifications/models.py` is not under `src/`). The spec gives
"actor id, recipient id, verb, target reference, creation timestamp"; the
call site `Notification.objects.create(...)` in `posts/views.py` passes
`actor`, `recipient`, `verb` and `target_object_id`. -/
structure Notification where
  actor : Nat
  recipient : Nat
  verb : String
  target_object_id : Nat
deriving DecidableEq, Repr

/-- The persistent state of the sliced service: registered user ids, the
directed follow edges `(follower, followee)` of the many-to-many through
table, the posts in insertion (id) order, the `Like` rows as
`(user, post id)` pairs, and the append-only notification log. -/
structure SocialState where
  users : List Nat
  follows : List (Nat × Nat)
  posts : List Post
  likes : List (Nat × Nat)
  notifications : List Notification
deriving DecidableEq, Repr

/-- Outcome of `FollowUserView.post`: 404 when the target pk does not
exist, 400 ("You cannot follow yourself.") on self-follow, success
otherwise. -/
inductive FollowResult where
  | notFound
  | selfFollowError
  | success
deriving DecidableEq, Repr

/-- Outcome of `UnfollowUserView.post`. -/
inductive UnfollowResult where
  | notFound
  | selfUnfollowError
  | success
deriving DecidableEq, Repr

/-- Outcome of `like_post`: 404 when the post pk does not exist, 400
("You have already liked this post.") on duplicate, 201 on creation. -/
inductive LikeResult where
  | notFound
  | alreadyLiked
  | created
deriving DecidableEq, Repr

/-- Outcome of `unlike_post`: 404 when the post pk does not exist, 400
("You have not liked this post.") when no like row exists, 200 on
deletion. -/
inductive UnlikeResult where
  | notFound
  | notLiked
  | deleted
deriving DecidableEq, Repr

/-- The out-set of a user: `user.following.all()` in Django terms, i.e.
the followees of `u` along the directed edge list. -/
def followingOf (s : SocialState) (u : Nat) : List Nat :=
  (s.follows.filter (fun e => e.1 = u)).map (fun e => e.2)

/-- The in-set of a user: `user.followers.all()`, i.e. the followers of
`u`. -/
def followersOf (s : SocialState) (u : Nat) : List Nat :=
  (s.follows.filter (fun e => e.2 = u)).map (fun e => e.1)

/-- `FollowUserView.post` (`accounts/views.py` lines 46-51):
`get_object_or_404(CustomUser, pk=pk)`, then reject `target == request.user`
with a 400, then `request.user.following.add(target_user)`. The
many-to-many `add` inserts the through row only when it is absent. -/
def followUserPost (s : SocialState) (requester pk : Nat) :
    FollowResult × SocialState :=
  if pk ∈ s.users then
    if pk = requester then
      (.selfFollowError, s)
    else if (requester, pk) ∈ s.follows then
      (.success, s)
    else
      (.success, { s with follows := s.follows ++ [(requester, pk)] })
  else
    (.notFound, s)

/-- `UnfollowUserView.post` (`accounts/views.py` lines 59-64):
`get_object_or_404`, reject self-unfollow with a 400, then
`request.user.following.remove(target_user)`. The many-to-many `remove`
deletes every through row matching the pair (there is at most one). -/
def unfollowUserPost (s : SocialState) (requester pk : Nat) :
    UnfollowResult × SocialState :=
  if pk ∈ s.users then
    if pk = requester then
      (.selfUnfollowError, s)
    else
      (.success, { s with follows := s.follows.filter (fun e => e ≠ (requester, pk)) })
  else
    (.notFound, s)

/-- Stable insertion (descending by `created_at`) used to model
`order_by('-created_at')`: an element is placed after every
already-placed element whose timestamp is at least as large, so equal
timestamps keep their relative (insertion/id) order. -/
def insertByCreatedDesc (p : Post) : List Post → List Post
  | [] => [p]
  | q :: qs =>
    if p.created_at < q.created_at then q :: insertByCreatedDesc p qs
    else p :: q :: qs

/-- Stable sort, descending by `created_at`. -/
def sortByCreatedDesc : List Post → List Post
  | [] => []
  | p :: ps => insertByCreatedDesc p (sortByCreatedDesc ps)

/-- `FeedView.get_queryset` (`posts/views.py` lines 40-43):
`following_users = user.following.all()` then
`Post.objects.filter(author__in=following_users).order_by('-created_at')`. -/
def feedGetQueryset (s : SocialState) (u : Nat) : List Post :=
  sortByCreatedDesc (s.posts.filter (fun p => p.author ∈ followingOf s u))

/-- `like_post` (`posts/views.py` lines 47-63): `get_object_or_404(Post,
pk=pk)`, then `Like.objects.get_or_create(user=request.user, post=post)`;
if the row already existed, 400 and no state change; otherwise the row is
created and, when `post.author != request.user`, a notification
`{actor, recipient, verb='liked your post', target_object_id}` is
appended. -/
def like_post (s : SocialState) (user pk : Nat) : LikeResult × SocialState :=
  match s.posts.find? (fun p => p.id = pk) with
  | none => (.notFound, s)
  | some post =>
    if (user, pk) ∈ s.likes then
      (.alreadyLiked, s)
    else
      let s1 := { s with likes := s.likes ++ [(user, pk)] }
      if post.author ≠ user then
        (.created, { s1 with notifications := s1.notifications ++
          [{ actor := user, recipient := post.author,
             verb := "liked your post", target_object_id := post.id }] })
      else
        (.created, s1)

/-- `unlike_post` (`posts/views.py` lines 67-74): `get_object_or_404(Post,
pk=pk)`, then `Like.objects.filter(user=..., post=...).first()`; if a row
is found it is deleted (200), otherwise 400 and no state change. -/
def unlike_post (s : SocialState) (user pk : Nat) : UnlikeResult × SocialState :=
  match s.posts.find? (fun p => p.id = pk) with
  | none => (.notFound, s)
  | some _ =>
    if (user, pk) ∈ s.likes then
      (.deleted, { s with likes := s.likes.erase (user, pk) })
    else
      (.notLiked, s)

/-- A follow-graph operation issued against the Social Graph Store. -/
inductive GraphOp where
  | follow (requester target : Nat)
  | unfollow (requester target : Nat)
deriving DecidableEq, Repr

/-- State transition of one graph operation (the response body is
discarded). -/
def applyGraphOp (s : SocialState) (op : GraphOp) : SocialState :=
  match op with
  | .follow r t => (followUserPost s r t).2
  | .unfollow r t => (unfollowUserPost s r t).2

/-- State after a sequence of follow/unfollow operations. -/
def applyGraphOps (s : SocialState) (ops : List GraphOp) : SocialState :=
  ops.foldl applyGraphOp s

/-- No user follows themself: the edge list holds no self-loop. -/
def NoSelfEdge (s : SocialState) : Prop :=
  ∀ e ∈ s.follows, e.1 ≠ e.2

/-- Test fixture: two registered users 0 and 1, no edges, no posts. -/
def stateAB : SocialState := ⟨[0, 1], [], [], [], []⟩

/-- Test fixture: users 1 and 2, user 2 authored post 10 at time 1, no
likes yet. -/
def statePosted : SocialState := ⟨[1, 2], [], [⟨10, 2, 1⟩], [], []⟩

/-- Test fixture: user 0 follows user 1, who authored posts 1 and 2 with
the same timestamp 5. -/
def tieState : SocialState := ⟨[0, 1], [(0, 1)], [⟨1, 1, 5⟩, ⟨2, 1, 5⟩], [], []⟩

/-- Test fixture for the feed scenario: A = 0 follows B = 1 and C = 2;
B authored P1 = post 1 at t = 1, C authored P2 = post 2 at t = 2. -/
def scenState : SocialState :=
  ⟨[0, 1, 2], [(0, 1), (0, 2)], [⟨1, 1, 1⟩, ⟨2, 2, 2⟩], [], []⟩

example : followingOf ⟨[0, 1], [(0, 1)], [], [], []⟩ 0 = [1] := by decide
example :
    (followUserPost ⟨[0, 1], [], [], [], []⟩ 0 1).2.follows = [(0, 1)] := by decide
example : (followUserPost ⟨[0, 1], [], [], [], []⟩ 0 0).1 = .selfFollowError := by
  decide
example :
    feedGetQueryset
      ⟨[0, 1, 2], [(0, 1), (0, 2)], [⟨1, 1, 1⟩, ⟨2, 2, 2⟩], [], []⟩ 0 =
      [⟨2, 2, 2⟩, ⟨1, 1, 1⟩] := by decide
example :
    feedGetQueryset
      ⟨[0, 1], [(0, 1)], [⟨1, 1, 5⟩, ⟨2, 1, 5⟩], [], []⟩ 0 =
      [⟨1, 1, 5⟩, ⟨2, 1, 5⟩] := by decide
example :
    (like_post ⟨[1, 2], [], [⟨10, 2, 1⟩], [], []⟩ 1 10).2.notifications =
      [⟨1, 2, "liked your post", 10⟩] := by decide
example :
    (like_post ⟨[1, 2], [], [⟨10, 1, 1⟩], [], []⟩ 1 10).2.notifications = [] := by
  decide
example :
    (unlike_post ⟨[1], [], [⟨10, 1, 1⟩], [], []⟩ 1 10).1 = .notLiked := by decide

/-- Membership in the out-set is exactly presence of the directed edge. -/
theorem mem_followingOf {s : SocialState} {u v : Nat} :
    v ∈ followingOf s u ↔ (u, v) ∈ s.follows := by
  simp only [followingOf, List.mem_map, List.mem_filter, decide_eq_true_eq]
  constructor
  · rintro ⟨⟨e1, e2⟩, ⟨hm, h1⟩, h2⟩
    simp only at h1 h2
    subst h1; subst h2; exact hm
  · intro h
    exact ⟨(u, v), ⟨h, rfl⟩, rfl⟩

/-- Membership in the in-set is exactly presence of the directed edge. -/
theorem mem_followersOf {s : SocialState} {u v : Nat} :
    v ∈ followersOf s u ↔ (v, u) ∈ s.follows := by
  simp only [followersOf, List.mem_map, List.mem_filter, decide_eq_true_eq]
  constructor
  · rintro ⟨⟨e1, e2⟩, ⟨hm, h1⟩, h2⟩
    simp only at h1 h2
    subst h1; subst h2; exact hm
  · intro h
    exact ⟨(v, u), ⟨h, rfl⟩, rfl⟩

/-- Membership through the stable insertion step. -/
theorem mem_insertByCreatedDesc {p q : Post} {l : List Post} :
    q ∈ insertByCreatedDesc p l ↔ q = p ∨ q ∈ l := by
  induction l with
  | nil => simp [insertByCreatedDesc]
  | cons r rs ih =>
    by_cases h : p.created_at < r.created_at
    · simp only [insertByCreatedDesc, if_pos h, List.mem_cons, ih]
      tauto
    · simp only [insertByCreatedDesc, if_neg h, List.mem_cons]

/-- The insertion step preserves multiplicities. -/
theorem count_insertByCreatedDesc (p q : Post) (l : List Post) :
    (insertByCreatedDesc p l).count q = (p :: l).count q := by
  induction l with
  | nil => rfl
  | cons r rs ih =>
    by_cases h : p.created_at < r.created_at
    · simp only [insertByCreatedDesc, if_pos h, List.count_cons, ih]
      omega
    · simp [insertByCreatedDesc, if_neg h]

/-- Inserting into a descending-sorted list keeps it descending-sorted. -/
theorem pairwise_insertByCreatedDesc {p : Post} {l : List Post}
    (hl : l.Pairwise (fun a b => b.created_at ≤ a.created_at)) :
    (insertByCreatedDesc p l).Pairwise (fun a b => b.created_at ≤ a.created_at) := by
  induction l with
  | nil => simp [insertByCreatedDesc]
  | cons r rs ih =>
    rcases List.pairwise_cons.mp hl with ⟨hr, hrs⟩
    by_cases h : p.created_at < r.created_at
    · simp only [insertByCreatedDesc, if_pos h]
      refine List.pairwise_cons.mpr ⟨?_, ih hrs⟩
      intro x hx
      rcases mem_insertByCreatedDesc.mp hx with rfl | hx'
      · exact Nat.le_of_lt h
      · exact hr x hx'
    · simp only [insertByCreatedDesc, if_neg h]
      refine List.pairwise_cons.mpr ⟨?_, hl⟩
      intro x hx
      rcases List.mem_cons.mp hx with rfl | hx'
      · exact Nat.le_of_not_lt h
      · exact le_trans (hr x hx') (Nat.le_of_not_lt h)

/-- The feed sort is descending in `created_at`. -/
theorem pairwise_sortByCreatedDesc (l : List Post) :
    (sortByCreatedDesc l).Pairwise (fun a b => b.created_at ≤ a.created_at) := by
  induction l with
  | nil => simp [sortByCreatedDesc]
  | cons p ps ih => exact pairwise_insertByCreatedDesc ih

/-- The feed sort neither adds nor drops elements. -/
theorem mem_sortByCreatedDesc {q : Post} {l : List Post} :
    q ∈ sortByCreatedDesc l ↔ q ∈ l := by
  induction l with
  | nil => simp [sortByCreatedDesc]
  | cons p ps ih => simp [sortByCreatedDesc, mem_insertByCreatedDesc, ih]

/-- The feed sort preserves multiplicities. -/
theorem count_sortByCreatedDesc (q : Post) (l : List Post) :
    (sortByCreatedDesc l).count q = l.count q := by
  induction l with
  | nil => rfl
  | cons p ps ih =>
    rw [sortByCreatedDesc, count_insertByCreatedDesc, List.count_cons,
      List.count_cons, ih]

/-- One follow/unfollow step never introduces a self-loop. -/
theorem noSelfEdge_applyGraphOp {s : SocialState} (hs : NoSelfEdge s)
    (op : GraphOp) : NoSelfEdge (applyGraphOp s op) := by
  cases op with
  | follow r t =>
    simp only [applyGraphOp, followUserPost]
    by_cases hu : t ∈ s.users
    · by_cases ht : t = r
      · simp only [if_pos hu, if_pos ht]
        exact hs
      · by_cases hm : (r, t) ∈ s.follows
        · simp only [if_pos hu, if_neg ht, if_pos hm]
          exact hs
        · simp only [if_pos hu, if_neg ht, if_neg hm]
          intro e he
          rcases List.mem_append.mp he with h1 | h1
          · exact hs e h1
          · rcases List.mem_singleton.mp h1 with rfl
            exact fun hrt => ht hrt.symm
    · simp only [if_neg hu]
      exact hs
  | unfollow r t =>
    simp only [applyGraphOp, unfollowUserPost]
    by_cases hu : t ∈ s.users
    · by_cases ht : t = r
      · simp only [if_pos hu, if_pos ht]
        exact hs
      · simp only [if_pos hu, if_neg ht]
        intro e he
        exact hs e (List.mem_of_mem_filter he)
    · simp only [if_neg hu]
      exact hs

/-- No sequence of follow/unfollow operations introduces a self-loop. -/
theorem noSelfEdge_applyGraphOps (ops : List GraphOp) :
    ∀ s : SocialState, NoSelfEdge s → NoSelfEdge (applyGraphOps s ops) := by
  induction ops with
  | nil => intro s hs; exact hs
  | cons op rest ih =>
    intro s hs
    exact ih _ (noSelfEdge_applyGraphOp hs op)

/-- C1: starting from any state without self-loops, `follow(u, u)` fails
with the self-follow error and changes nothing, and no sequence of
follow/unfollow operations can ever put `u` into `followingOf(u)`. -/
theorem c1_no_self_follow (s : SocialState) (hs : NoSelfEdge s) (u : Nat)
    (hu : u ∈ s.users) (ops : List GraphOp) :
    followUserPost s u u = (.selfFollowError, s)
    ∧ NoSelfEdge (applyGraphOps s ops)
    ∧ u ∉ followingOf (applyGraphOps s ops) u := by
  refine ⟨?_, noSelfEdge_applyGraphOps ops s hs, ?_⟩
  · simp [followUserPost, hu]
  · intro hmem
    exact noSelfEdge_applyGraphOps ops s hs _ (mem_followingOf.mp hmem) rfl

/-- C5: for `a ≠ b`, following twice succeeds both times, the second call
is a no-op, and from an empty out-set the out-set afterwards is exactly
`[b]`. -/
theorem c5_follow_idempotent (s : SocialState) (a b : Nat) (hab : a ≠ b)
    (hb : b ∈ s.users) :
    (followUserPost s a b).1 = .success
    ∧ followUserPost (followUserPost s a b).2 a b =
        (.success, (followUserPost s a b).2)
    ∧ (followingOf s a = [] →
        followingOf (followUserPost (followUserPost s a b).2 a b).2 a = [b]) := by
  have hba : ¬ b = a := fun h => hab h.symm
  by_cases hm : (a, b) ∈ s.follows
  · simp only [followUserPost, if_pos hb, if_neg hba, if_pos hm]
    refine ⟨trivial, trivial, ?_⟩
    intro h0
    exfalso
    have hbmem : b ∈ followingOf s a := mem_followingOf.mpr hm
    rw [h0] at hbmem
    exact List.not_mem_nil b hbmem
  · simp only [followUserPost, if_pos hb, if_neg hba, if_neg hm]
    have hm2 : (a, b) ∈ s.follows ++ [(a, b)] :=
      List.mem_append_right _ (List.mem_singleton_self _)
    simp only [if_pos hb, if_pos hm2]
    refine ⟨trivial, trivial, ?_⟩
    intro h0
    simp only [followingOf, List.filter_append, List.map_append]
    rw [show followingOf s a =
        (s.follows.filter (fun e => e.1 = a)).map (fun e => e.2) from rfl] at h0
    rw [h0]
    simp

/-- C6: for `a ≠ b`, unfollow succeeds, is a no-op when the edge is
absent, always leaves the edge absent, and undoes a preceding follow. -/
theorem c6_unfollow_idempotent (s : SocialState) (a b : Nat) (hab : a ≠ b)
    (hb : b ∈ s.users) :
    (unfollowUserPost s a b).1 = .success
    ∧ ((a, b) ∉ s.follows → (unfollowUserPost s a b).2 = s)
    ∧ (a, b) ∉ (unfollowUserPost s a b).2.follows
    ∧ (followingOf s a = [] →
        followingOf (unfollowUserPost (followUserPost s a b).2 a b).2 a = []) := by
  have hba : ¬ b = a := fun h => hab h.symm
  refine ⟨?_, ?_, ?_, ?_⟩
  · simp only [unfollowUserPost, if_pos hb, if_neg hba]
  · intro hnm
    simp only [unfollowUserPost, if_pos hb, if_neg hba]
    cases s with
    | mk us fl ps lk nt =>
      simp only [SocialState.mk.injEq, and_true, true_and]
      apply List.filter_eq_self.mpr
      intro e he
      simp only [decide_eq_true_eq]
      intro heq
      exact hnm (heq ▸ he)
  · simp only [unfollowUserPost, if_pos hb, if_neg hba]
    intro hmem
    have := (List.mem_filter.mp hmem).2
    simp at this
  · intro h0
    have hnm : (a, b) ∉ s.follows := by
      intro hm
      have hbmem : b ∈ followingOf s a := mem_followingOf.mpr hm
      rw [h0] at hbmem
      exact List.not_mem_nil b hbmem
    simp only [followUserPost, if_pos hb, if_neg hba, if_neg hnm]
    simp only [unfollowUserPost, if_pos hb, if_neg hba]
    rw [List.eq_nil_iff_forall_not_mem]
    intro v hv
    have hedge := mem_followingOf.mp hv
    have h1 := List.mem_filter.mp hedge
    rcases List.mem_append.mp h1.1 with h2 | h2
    · have : v ∈ followingOf s a := mem_followingOf.mpr h2
      rw [h0] at this
      exact List.not_mem_nil v this
    · have h3 := List.mem_singleton.mp h2
      have h4 := h1.2
      rw [h3] at h4
      simp at h4

/-- C8: following `a → b` adds `b` to `a`'s out-set and `a` to `b`'s
in-set, does not add `a` to `b`'s out-set, and leaves every other user's
out-set and in-set unchanged. -/
theorem c8_follow_frame (s : SocialState) (a b : Nat) (hab : a ≠ b)
    (hb : b ∈ s.users) :
    b ∈ followingOf (followUserPost s a b).2 a
    ∧ a ∈ followersOf (followUserPost s a b).2 b
    ∧ (a ∈ followingOf (followUserPost s a b).2 b ↔ a ∈ followingOf s b)
    ∧ (∀ c : Nat, c ≠ a → followingOf (followUserPost s a b).2 c = followingOf s c)
    ∧ (∀ c : Nat, c ≠ b → followersOf (followUserPost s a b).2 c = followersOf s c) := by
  have hba : ¬ b = a := fun h => hab h.symm
  by_cases hm : (a, b) ∈ s.follows
  · simp only [followUserPost, if_pos hb, if_neg hba, if_pos hm]
    exact ⟨mem_followingOf.mpr hm, mem_followersOf.mpr hm, trivial,
      fun c _ => trivial, fun c _ => trivial⟩
  · simp only [followUserPost, if_pos hb, if_neg hba, if_neg hm]
    refine ⟨?_, ?_, ?_, ?_, ?_⟩
    · exact mem_followingOf.mpr
        (List.mem_append_right _ (List.mem_singleton_self _))
    · exact mem_followersOf.mpr
        (List.mem_append_right _ (List.mem_singleton_self _))
    · rw [mem_followingOf, mem_followingOf]
      constructor
      · intro h
        rcases List.mem_append.mp h with h1 | h1
        · exact h1
        · exfalso
          have := List.mem_singleton.mp h1
          have hba2 : b = a := congrArg Prod.fst this
          exact hba hba2
      · intro h
        exact List.mem_append_left _ h
    · intro c hc
      simp only [followingOf, List.filter_append, List.map_append]
      have hac : ¬ (a = c) := fun h => hc h.symm
      have : ([(a, b)] : List (Nat × Nat)).filter (fun e => e.1 = c) = [] := by
        simp [List.filter, hac]
      rw [this]
      simp
    · intro c hc
      simp only [followersOf, List.filter_append, List.map_append]
      have hbc : ¬ (b = c) := fun h => hc h.symm
      have : ([(a, b)] : List (Nat × Nat)).filter (fun e => e.2 = c) = [] := by
        simp [List.filter, hbc]
      rw [this]
      simp

/-- C9: self-reference is an explicit 400 error in both directions:
`unfollow(u, u)` and `follow(u, u)` both fail and leave the state
unchanged for every registered user. -/
theorem c9_self_reference_error (s : SocialState) (u : Nat)
    (hu : u ∈ s.users) :
    unfollowUserPost s u u = (.selfUnfollowError, s)
    ∧ followUserPost s u u = (.selfFollowError, s) := by
  constructor
  · simp [unfollowUserPost, hu]
  · simp [followUserPost, hu]

/-- C2 (amended): the feed contains exactly the posts (with
multiplicities) whose author is in the caller's out-set, ordered
descending by creation timestamp; equal timestamps keep their
insertion/id order, oldest first; the concrete spec scenario
`feedFor(A) = [P2, P1]` holds. -/
theorem c2_feed_correct :
    (∀ (s : SocialState) (u : Nat) (p : Post),
        p ∈ feedGetQueryset s u ↔ p ∈ s.posts ∧ p.author ∈ followingOf s u)
    ∧ (∀ (s : SocialState) (u : Nat) (p : Post),
        (feedGetQueryset s u).count p =
          (s.posts.filter (fun q => q.author ∈ followingOf s u)).count p)
    ∧ (∀ (s : SocialState) (u : Nat),
        (feedGetQueryset s u).Pairwise (fun a b => b.created_at ≤ a.created_at))
    ∧ feedGetQueryset scenState 0 = [⟨2, 2, 2⟩, ⟨1, 1, 1⟩] := by
  refine ⟨?_, ?_, ?_, by decide⟩
  · intro s u p
    rw [feedGetQueryset, mem_sortByCreatedDesc, List.mem_filter]
    simp only [decide_eq_true_eq]
  · intro s u p
    exact count_sortByCreatedDesc p _
  · intro s u
    exact pairwise_sortByCreatedDesc _

/-- C2, counterexample to the claimed tie-break: two posts by the same
followed author share timestamp 5; the feed returns them in insertion/id
order oldest first, not `[P2, P1]` (id order newest first) as the claim
states. -/
theorem c2_tie_counterexample :
    feedGetQueryset tieState 0 = [⟨1, 1, 5⟩, ⟨2, 1, 5⟩]
    ∧ feedGetQueryset tieState 0 ≠ [⟨2, 1, 5⟩, ⟨1, 1, 5⟩] :=
  ⟨by decide, by decide⟩

/-- C3: for an existing post, `like_post` answers the already-liked error
exactly when a like row for `(user, post)` exists, in which case the
state is unchanged; otherwise exactly the one row `(user, post)` is
appended. -/
theorem c3_like_duplicate_signalled (s : SocialState) (u pk : Nat)
    (post : Post) (hfind : s.posts.find? (fun p => p.id = pk) = some post) :
    ((like_post s u pk).1 = .alreadyLiked ↔ (u, pk) ∈ s.likes)
    ∧ ((u, pk) ∈ s.likes → (like_post s u pk).2 = s)
    ∧ ((u, pk) ∉ s.likes →
        (like_post s u pk).2.likes = s.likes ++ [(u, pk)]) := by
  refine ⟨?_, ?_, ?_⟩
  · by_cases hm : (u, pk) ∈ s.likes
    · simp [like_post, hfind, hm]
    · by_cases ha : post.author = u
      · simp [like_post, hfind, hm, ha]
      · simp [like_post, hfind, hm, ha]
  · intro hm
    simp [like_post, hfind, hm]
  · intro hm
    by_cases ha : post.author = u
    · simp [like_post, hfind, hm, ha]
    · simp [like_post, hfind, hm, ha]

/-- C4 (amended): a successful like of an existing post emits exactly one
notification `{actor := user, recipient := author, verb := "liked your
post", target := post}` when the author differs from the liker, and no
notification when the user likes their own post. -/
theorem c4_like_notifies_author (s : SocialState) (u pk : Nat) (post : Post)
    (hfind : s.posts.find? (fun p => p.id = pk) = some post)
    (hnew : (u, pk) ∉ s.likes) :
    (post.author ≠ u →
      (like_post s u pk).2.notifications = s.notifications ++
        [{ actor := u, recipient := post.author,
           verb := "liked your post", target_object_id := post.id }])
    ∧ (post.author = u →
        (like_post s u pk).2.notifications = s.notifications) := by
  refine ⟨?_, ?_⟩
  · intro ha
    simp [like_post, hfind, hnew, ha]
  · intro ha
    simp [like_post, hfind, hnew, ha]

/-- C4, counterexample to the claimed verb: user 1 likes post 10 authored
by user 2; exactly one notification is emitted, but its verb is
`"liked your post"`, not `"liked"` as the claim states. -/
theorem c4_verb_counterexample :
    (like_post statePosted 1 10).2.notifications =
      [⟨1, 2, "liked your post", 10⟩]
    ∧ (⟨1, 2, "liked your post", 10⟩ : Notification).verb ≠ "liked" :=
  ⟨by decide, by decide⟩

/-- C7: for an existing post, `unlike_post` answers the not-liked error
exactly when no like row for `(user, post)` exists, in which case the
state is unchanged; otherwise it deletes that one row, never touches the
notification log, and every other pair's like row is untouched. -/
theorem c7_unlike_deletes_only_own (s : SocialState) (u pk : Nat)
    (post : Post) (hfind : s.posts.find? (fun p => p.id = pk) = some post) :
    ((unlike_post s u pk).1 = .notLiked ↔ (u, pk) ∉ s.likes)
    ∧ ((u, pk) ∉ s.likes → (unlike_post s u pk).2 = s)
    ∧ ((u, pk) ∈ s.likes →
        (unlike_post s u pk).2.likes = s.likes.erase (u, pk))
    ∧ (unlike_post s u pk).2.notifications = s.notifications
    ∧ (∀ v q : Nat, (v, q) ≠ (u, pk) →
        ((v, q) ∈ (unlike_post s u pk).2.likes ↔ (v, q) ∈ s.likes)) := by
  refine ⟨?_, ?_, ?_, ?_, ?_⟩
  · by_cases hm : (u, pk) ∈ s.likes
    · simp [unlike_post, hfind, hm]
    · simp [unlike_post, hfind, hm]
  · intro hm
    simp [unlike_post, hfind, hm]
  · intro hm
    simp [unlike_post, hfind, hm]
  · by_cases hm : (u, pk) ∈ s.likes
    · simp [unlike_post, hfind, hm]
    · simp [unlike_post, hfind, hm]
  · intro v q hne
    by_cases hm : (u, pk) ∈ s.likes
    · simp only [unlike_post, hfind, if_pos hm]
      exact List.mem_erase_of_ne hne
    · simp [unlike_post, hfind, hm]

/-- Witness for C1 at the two-user fixture with a follow/unfollow run. -/
theorem c1_no_self_follow_witness :
    followUserPost stateAB 0 0 = (.selfFollowError, stateAB)
    ∧ NoSelfEdge (applyGraphOps stateAB [.follow 0 1, .unfollow 0 1])
    ∧ 0 ∉ followingOf (applyGraphOps stateAB [.follow 0 1, .unfollow 0 1]) 0 :=
  c1_no_self_follow stateAB
    (by intro e he; simp [stateAB] at he) 0 (by decide)
    [.follow 0 1, .unfollow 0 1]

/-- Witness for C3: user 1 likes the existing post 10 of the fixture. -/
theorem c3_like_duplicate_signalled_witness :
    ((like_post statePosted 1 10).1 = .alreadyLiked ↔
        ((1 : Nat), (10 : Nat)) ∈ statePosted.likes)
    ∧ (((1 : Nat), (10 : Nat)) ∈ statePosted.likes →
        (like_post statePosted 1 10).2 = statePosted)
    ∧ (((1 : Nat), (10 : Nat)) ∉ statePosted.likes →
        (like_post statePosted 1 10).2.likes = statePosted.likes ++ [(1, 10)]) :=
  c3_like_duplicate_signalled statePosted 1 10 ⟨10, 2, 1⟩ (by decide)

/-- Witness for C4 at the fixture where post 10 is authored by user 2. -/
theorem c4_like_notifies_author_witness :
    ((⟨10, 2, 1⟩ : Post).author ≠ 1 →
      (like_post statePosted 1 10).2.notifications =
        statePosted.notifications ++
          [{ actor := 1, recipient := (⟨10, 2, 1⟩ : Post).author,
             verb := "liked your post",
             target_object_id := (⟨10, 2, 1⟩ : Post).id }])
    ∧ ((⟨10, 2, 1⟩ : Post).author = 1 →
        (like_post statePosted 1 10).2.notifications =
          statePosted.notifications) :=
  c4_like_notifies_author statePosted 1 10 ⟨10, 2, 1⟩ (by decide) (by decide)

/-- Witness for C5: user 0 follows user 1 twice from the empty graph. -/
theorem c5_follow_idempotent_witness :
    (followUserPost stateAB 0 1).1 = .success
    ∧ followUserPost (followUserPost stateAB 0 1).2 0 1 =
        (.success, (followUserPost stateAB 0 1).2)
    ∧ (followingOf stateAB 0 = [] →
        followingOf (followUserPost (followUserPost stateAB 0 1).2 0 1).2 0 =
          [1]) :=
  c5_follow_idempotent stateAB 0 1 (by decide) (by decide)

/-- Witness for C6: user 0 unfollows user 1 on the empty graph, and after
a follow. -/
theorem c6_unfollow_idempotent_witness :
    (unfollowUserPost stateAB 0 1).1 = .success
    ∧ (((0 : Nat), (1 : Nat)) ∉ stateAB.follows →
        (unfollowUserPost stateAB 0 1).2 = stateAB)
    ∧ ((0 : Nat), (1 : Nat)) ∉ (unfollowUserPost stateAB 0 1).2.follows
    ∧ (followingOf stateAB 0 = [] →
        followingOf (unfollowUserPost (followUserPost stateAB 0 1).2 0 1).2 0 =
          []) :=
  c6_unfollow_idempotent stateAB 0 1 (by decide) (by decide)

/-- Witness for C7: user 1 unlikes the existing post 10 of the fixture. -/
theorem c7_unlike_deletes_only_own_witness :
    ((unlike_post statePosted 1 10).1 = .notLiked ↔
        ((1 : Nat), (10 : Nat)) ∉ statePosted.likes)
    ∧ (((1 : Nat), (10 : Nat)) ∉ statePosted.likes →
        (unlike_post statePosted 1 10).2 = statePosted)
    ∧ (((1 : Nat), (10 : Nat)) ∈ statePosted.likes →
        (unlike_post statePosted 1 10).2.likes =
          statePosted.likes.erase (1, 10))
    ∧ (unlike_post statePosted 1 10).2.notifications =
        statePosted.notifications
    ∧ (∀ v q : Nat, (v, q) ≠ (1, 10) →
        ((v, q) ∈ (unlike_post statePosted 1 10).2.likes ↔
          (v, q) ∈ statePosted.likes)) :=
  c7_unlike_deletes_only_own statePosted 1 10 ⟨10, 2, 1⟩ (by decide)

/-- Witness for C8: user 0 follows user 1 on the two-user fixture. -/
theorem c8_follow_frame_witness :
    1 ∈ followingOf (followUserPost stateAB 0 1).2 0
    ∧ 0 ∈ followersOf (followUserPost stateAB 0 1).2 1
    ∧ (0 ∈ followingOf (followUserPost stateAB 0 1).2 1 ↔
        0 ∈ followingOf stateAB 1)
    ∧ (∀ c : Nat, c ≠ 0 →
        followingOf (followUserPost stateAB 0 1).2 c = followingOf stateAB c)
    ∧ (∀ c : Nat, c ≠ 1 →
        followersOf (followUserPost stateAB 0 1).2 c = followersOf stateAB c) :=
  c8_follow_frame stateAB 0 1 (by decide) (by decide)

/-- Witness for C9: user 0 self-unfollows and self-follows. -/
theorem c9_self_reference_error_witness :
    unfollowUserPost stateAB 0 0 = (.selfUnfollowError, stateAB)
    ∧ followUserPost stateAB 0 0 = (.selfFollowError, stateAB) :=
  c9_self_reference_error stateAB 0 (by decide)
